import Mathlib

/-!
Shallow embedding of the VIC-20 system layer (src/systems/vic20.h) and
verification of the specified bus-arbitration / lifecycle properties.

The chip cores and helper modules used by vic20.h (m6502.h, m6522.h,
m6561.h, kbd.h, mem.h, clk.h) are external collaborators of this layer and
are not part of the analysed sources; they are modelled from the
specification, each such definition is marked in its doc comment.
Machine integers are modelled as Nat with explicit truncation where the C
code truncates.  The host-integration pieces the spec excludes
(pixel buffer, audio sample buffer, user-data pointers) are omitted from
the state.
-/

/-- Fixed system clock frequency in Hz (VIC20_FREQUENCY). -/
def VIC20_FREQUENCY : Nat := 1108404

/-- Joystick mask bit for up (VIC20_JOYSTICK_UP, 1<<0). -/
def VIC20_JOYSTICK_UP : Nat := 1

/-- Joystick mask bit for down (VIC20_JOYSTICK_DOWN, 1<<1). -/
def VIC20_JOYSTICK_DOWN : Nat := 2

/-- Joystick mask bit for left (VIC20_JOYSTICK_LEFT, 1<<2). -/
def VIC20_JOYSTICK_LEFT : Nat := 4

/-- Joystick mask bit for right (VIC20_JOYSTICK_RIGHT, 1<<3). -/
def VIC20_JOYSTICK_RIGHT : Nat := 8

/-- Joystick mask bit for the fire button (VIC20_JOYSTICK_BTN, 1<<4). -/
def VIC20_JOYSTICK_BTN : Nat := 16

/-- Modelled from the spec: the RESET control line of the CPU pin bus
(M6502_RES from m6502.h, which is not under src/).  The concrete bit
position is irrelevant to the claims; it is fixed here as bit 30 of the
64-bit pin bus. -/
def M6502_RES : Nat := 2 ^ 30

/-- Joystick emulation modes (vic20_joystick_type_t). -/
inductive vic20_joystick_type_t where
  | NONE
  | DIGITAL_1
  | DIGITAL_2
  | DIGITAL_12
deriving Repr, DecidableEq

/-- Modelled from the spec: keyboard-matrix state (kbd_t from kbd.h, which
is not under src/): a pressed-key grid with a periodic debounce update.
The grid is modelled as the list of currently pressed key codes; the
debounce clock is the number of debounce updates performed so far. -/
structure kbd_t where
  sticky_count : Nat
  pressed : List Int
  frame_count : Nat
deriving Repr, DecidableEq

/-- Modelled from the spec: keyboard-matrix construction (kbd_init). -/
def kbd_init (sticky_count : Nat) : kbd_t :=
  { sticky_count := sticky_count, pressed := [], frame_count := 0 }

/-- Modelled from the spec: mark a key as pressed in the matrix
(kbd_key_down). -/
def kbd_key_down (kbd : kbd_t) (key_code : Int) : kbd_t :=
  { kbd with pressed :=
      if key_code ∈ kbd.pressed then kbd.pressed else key_code :: kbd.pressed }

/-- Modelled from the spec: mark a key as released in the matrix
(kbd_key_up). -/
def kbd_key_up (kbd : kbd_t) (key_code : Int) : kbd_t :=
  { kbd with pressed := kbd.pressed.filter (fun k => k != key_code) }

/-- Modelled from the spec: one keyboard debounce update (kbd_update);
advances the debounce clock by one step. -/
def kbd_update (kbd : kbd_t) : kbd_t :=
  { kbd with frame_count := kbd.frame_count + 1 }

/-- Modelled from the spec: CPU core state (m6502_t from m6502.h, which is
not under src/); its internal state machine is abstracted into one field. -/
structure m6502_t where
  state : Nat
deriving Repr, DecidableEq

/-- Modelled from the spec: CPU construction (m6502_init); returns the
initial CPU state and the initial pin bus with the RESET line asserted. -/
def m6502_init : m6502_t × Nat := (⟨0⟩, M6502_RES)

/-- Modelled from the spec: timer/parallel-I-O chip state (m6522_t from
m6522.h, which is not under src/); internal registers abstracted into one
field.  The port callbacks wired at construction are the top-level
functions _vic20_via1_in/_vic20_via1_out (and the via-2 pair) below. -/
structure m6522_t where
  regs : Nat
deriving Repr, DecidableEq

/-- Modelled from the spec: timer/parallel-I-O chip construction
(m6522_init): registers start at their defined zero values. -/
def m6522_init : m6522_t := ⟨0⟩

/-- Modelled from the spec: timer/parallel-I-O chip reset (m6522_reset):
internal registers go to their defined reset values. -/
def m6522_reset (_via : m6522_t) : m6522_t := ⟨0⟩

/-- Modelled from the spec: video/audio chip state (m6561_t from m6561.h,
which is not under src/); internal state abstracted into one field. -/
structure m6561_t where
  regs : Nat
deriving Repr, DecidableEq

/-- Modelled from the spec: video/audio chip construction (m6561_init). -/
def m6561_init : m6561_t := ⟨0⟩

/-- Modelled from the spec: video/audio chip reset (m6561_reset): internal
state goes to its defined reset values. -/
def m6561_reset (_vic : m6561_t) : m6561_t := ⟨0⟩

/-- Modelled from the spec: duration-to-cycle conversion (clk_us_to_ticks
from clk.h, which is not under src/): converts a microsecond count into a
cycle count at the given fixed clock frequency. -/
def clk_us_to_ticks (freq_hz : Nat) (micro_seconds : Nat) : Nat :=
  freq_hz * micro_seconds / 1000000

/-- Identifies which byte region of the system state backs a mapped
window; stands for the backing pointer passed to mem_map_ram/mem_map_rom. -/
inductive mem_backing_t where
  | ram0
  | ram1
  | ram_exp0
  | ram_exp1
  | ram_exp2
  | rom_char
  | rom_basic
  | rom_kernal
deriving Repr, DecidableEq

/-- Modelled from the spec: one mapped address-space window of the memory
mapper (mem.h is not under src/): a start address, a declared byte size, a
read-write flag and the backing region. -/
structure mem_window_t where
  addr : Nat
  size : Nat
  writable : Bool
  backing : mem_backing_t
deriving Repr, DecidableEq

/-- Modelled from the spec: memory-mapper state (mem_t from mem.h): the
list of mapped windows of the 64 KB CPU address space, in mapping order. -/
structure mem_t where
  windows : List mem_window_t
deriving Repr, DecidableEq

/-- Modelled from the spec: memory-mapper construction (mem_init): no
window mapped. -/
def mem_init : mem_t := ⟨[]⟩

/-- Modelled from the spec: map a read-write window (mem_map_ram).  The
layer argument is carried by the C interface; all mappings in vic20.h use
layer 0, so layers are not modelled. -/
def mem_map_ram (mem : mem_t) (_layer addr size : Nat) (b : mem_backing_t) : mem_t :=
  ⟨mem.windows ++ [⟨addr % 65536, size, true, b⟩]⟩

/-- Modelled from the spec: map a read-only window (mem_map_rom). -/
def mem_map_rom (mem : mem_t) (_layer addr size : Nat) (b : mem_backing_t) : mem_t :=
  ⟨mem.windows ++ [⟨addr % 65536, size, false, b⟩]⟩

/-- Whether a window contains a 16-bit address: the offset of the address
from the window start, taken inside the 64 KB address space, is below the
declared window size. -/
def mem_window_hit (w : mem_window_t) (addr : Nat) : Bool :=
  (addr + 65536 - w.addr) % 65536 < w.size

/-- Configuration parameters for vic20_init (vic20_desc_t).  The pixel
buffer, audio and user-data options are host integration and are omitted;
the ROM images are byte lists with their declared sizes. -/
structure vic20_desc_t where
  joystick_type : vic20_joystick_type_t
  rom_char : List Nat
  rom_basic : List Nat
  rom_kernal : List Nat
  rom_char_size : Nat
  rom_basic_size : Nat
  rom_kernal_size : Nat
deriving Repr, DecidableEq

/-- VIC-20 emulator state (vic20_t).  Host-integration fields (pixel
buffer, audio sample buffer, user-data pointer) are omitted; byte arrays
are byte lists. -/
structure vic20_t where
  pins : Nat
  cpu : m6502_t
  via_1 : m6522_t
  via_2 : m6522_t
  vic : m6561_t
  valid : Bool
  joystick_type : vic20_joystick_type_t
  joystick_active : Nat
  cas_port : Nat
  iec_port : Nat
  kbd_joy1_mask : Nat
  kbd_joy2_mask : Nat
  joy_joy1_mask : Nat
  joy_joy2_mask : Nat
  kbd : kbd_t
  mem_cpu : mem_t
  ram0 : List Nat
  ram1 : List Nat
  ram_exp0 : List Nat
  ram_exp1 : List Nat
  ram_exp2 : List Nat
  rom_char : List Nat
  rom_basic : List Nat
  rom_kernal : List Nat
deriving Repr, DecidableEq

/-- Key-map construction (_vic20_init_key_map): only kbd_init(kbd, 1) is
performed, the key-map table itself is a FIXME stub in the source. -/
def _vic20_init_key_map : kbd_t := kbd_init 1

/-- System construction (vic20_init).  Preconditions checked by
CHIPS_ASSERT in the C code (non-null descriptor, ROM pointers present,
rom_char_size = 0x1000, rom_basic_size = 0x2000, rom_kernal_size = 0x2000)
are treated as hypotheses of the theorems that need them.  memcpy of
sizeof(rom) bytes is modelled by List.take of the array length.  The five
mem_map calls carry exactly the literal arguments of the source:
(0x0000, 0x0400), (0x1000, 0x1000), (0x8000, 0x1000), (0xC000, 0xDFFF),
(0xE000, 0xFFFF). -/
def vic20_init (desc : vic20_desc_t) : vic20_t :=
  { pins := m6502_init.2
    cpu := m6502_init.1
    via_1 := m6522_init
    via_2 := m6522_init
    vic := m6561_init
    valid := true
    joystick_type := desc.joystick_type
    joystick_active := 0
    cas_port := 0
    iec_port := 0
    kbd_joy1_mask := 0
    kbd_joy2_mask := 0
    joy_joy1_mask := 0
    joy_joy2_mask := 0
    kbd := _vic20_init_key_map
    mem_cpu :=
      mem_map_rom
        (mem_map_rom
          (mem_map_rom
            (mem_map_ram
              (mem_map_ram mem_init 0 0x0000 0x0400 mem_backing_t.ram0)
              0 0x1000 0x1000 mem_backing_t.ram1)
            0 0x8000 0x1000 mem_backing_t.rom_char)
          0 0xC000 0xDFFF mem_backing_t.rom_basic)
        0 0xE000 0xFFFF mem_backing_t.rom_kernal
    ram0 := List.replicate 0x0400 0
    ram1 := List.replicate 0x1000 0
    ram_exp0 := List.replicate 0x2000 0
    ram_exp1 := List.replicate 0x2000 0
    ram_exp2 := List.replicate 0x2000 0
    rom_char := desc.rom_char.take 0x1000
    rom_basic := desc.rom_basic.take 0x2000
    rom_kernal := desc.rom_kernal.take 0x2000 }

/-- Instance teardown (vic20_discard). -/
def vic20_discard (sys : vic20_t) : vic20_t :=
  { sys with valid := false }

/-- System reset (vic20_reset): zero the four joystick masks, assert the
CPU RESET line on the pin bus, reset both VIAs and the VIC. -/
def vic20_reset (sys : vic20_t) : vic20_t :=
  { sys with
      kbd_joy1_mask := 0
      kbd_joy2_mask := 0
      joy_joy1_mask := 0
      joy_joy2_mask := 0
      pins := sys.pins ||| M6502_RES
      via_1 := m6522_reset sys.via_1
      via_2 := m6522_reset sys.via_2
      vic := m6561_reset sys.vic }

/-- The per-cycle system tick (_vic20_tick).  In the source this is a
FIXME stub: it returns the pin bus unchanged and touches no chip state. -/
def _vic20_tick (_sys : vic20_t) (pins : Nat) : Nat :=
  pins

/-- Single-cycle tick entry point (vic20_tick). -/
def vic20_tick (sys : vic20_t) : vic20_t :=
  { sys with pins := _vic20_tick sys sys.pins }

/-- The tick loop body of vic20_exec: n iterations of
pins = _vic20_tick(sys, pins). -/
def _vic20_exec_loop (sys : vic20_t) (pins : Nat) : Nat → Nat
  | 0 => pins
  | Nat.succ n => _vic20_exec_loop sys (_vic20_tick sys pins) n

/-- Bulk execution (vic20_exec): convert the microsecond count to a cycle
count at VIC20_FREQUENCY, run the tick loop, then perform one keyboard
debounce update for the whole batch. -/
def vic20_exec (sys : vic20_t) (micro_seconds : Nat) : vic20_t :=
  let num_ticks := clk_us_to_ticks VIC20_FREQUENCY micro_seconds
  let pins := _vic20_exec_loop sys sys.pins num_ticks
  { sys with pins := pins, kbd := kbd_update sys.kbd }

/-- Key-down routing (vic20_key_down).  With joystick emulation off every
key goes to the matrix; otherwise the five designated key codes are
intercepted into the keyboard-emulated joystick masks of the configured
joystick(s) and every other key code falls through to the matrix. -/
def vic20_key_down (sys : vic20_t) (key_code : Int) : vic20_t :=
  if sys.joystick_type = vic20_joystick_type_t.NONE then
    { sys with kbd := kbd_key_down sys.kbd key_code }
  else
    let m : Nat :=
      if key_code = 0x20 then VIC20_JOYSTICK_BTN
      else if key_code = 0x08 then VIC20_JOYSTICK_LEFT
      else if key_code = 0x09 then VIC20_JOYSTICK_RIGHT
      else if key_code = 0x0A then VIC20_JOYSTICK_DOWN
      else if key_code = 0x0B then VIC20_JOYSTICK_UP
      else 0
    if m = 0 then { sys with kbd := kbd_key_down sys.kbd key_code }
    else
      match sys.joystick_type with
      | vic20_joystick_type_t.DIGITAL_1 =>
          { sys with kbd_joy1_mask := sys.kbd_joy1_mask ||| m }
      | vic20_joystick_type_t.DIGITAL_2 =>
          { sys with kbd_joy2_mask := sys.kbd_joy2_mask ||| m }
      | vic20_joystick_type_t.DIGITAL_12 =>
          { sys with
              kbd_joy1_mask := sys.kbd_joy1_mask ||| m
              kbd_joy2_mask := sys.kbd_joy2_mask ||| m }
      | vic20_joystick_type_t.NONE => sys

/-- Key-up routing (vic20_key_up); mirrors vic20_key_down, clearing mask
bits.  The C expression mask &= ~m on a uint8 is the 8-bit complement,
written here as &&& (255 ^^^ m). -/
def vic20_key_up (sys : vic20_t) (key_code : Int) : vic20_t :=
  if sys.joystick_type = vic20_joystick_type_t.NONE then
    { sys with kbd := kbd_key_up sys.kbd key_code }
  else
    let m : Nat :=
      if key_code = 0x20 then VIC20_JOYSTICK_BTN
      else if key_code = 0x08 then VIC20_JOYSTICK_LEFT
      else if key_code = 0x09 then VIC20_JOYSTICK_RIGHT
      else if key_code = 0x0A then VIC20_JOYSTICK_DOWN
      else if key_code = 0x0B then VIC20_JOYSTICK_UP
      else 0
    if m = 0 then { sys with kbd := kbd_key_up sys.kbd key_code }
    else
      match sys.joystick_type with
      | vic20_joystick_type_t.DIGITAL_1 =>
          { sys with kbd_joy1_mask := sys.kbd_joy1_mask &&& (255 ^^^ m) }
      | vic20_joystick_type_t.DIGITAL_2 =>
          { sys with kbd_joy2_mask := sys.kbd_joy2_mask &&& (255 ^^^ m) }
      | vic20_joystick_type_t.DIGITAL_12 =>
          { sys with
              kbd_joy1_mask := sys.kbd_joy1_mask &&& (255 ^^^ m)
              kbd_joy2_mask := sys.kbd_joy2_mask &&& (255 ^^^ m) }
      | vic20_joystick_type_t.NONE => sys

/-- Set joystick emulation mode (vic20_set_joystick_type). -/
def vic20_set_joystick_type (sys : vic20_t) (t : vic20_joystick_type_t) : vic20_t :=
  { sys with joystick_type := t }

/-- Query joystick emulation mode (vic20_joystick_type). -/
def vic20_joystick_type (sys : vic20_t) : vic20_joystick_type_t :=
  sys.joystick_type

/-- Directly set the two joystick masks (vic20_joystick); the uint8
parameters truncate to 8 bits. -/
def vic20_joystick (sys : vic20_t) (joy1_mask joy2_mask : Nat) : vic20_t :=
  { sys with
      joy_joy1_mask := joy1_mask % 256
      joy_joy2_mask := joy2_mask % 256 }

/-- VIA-1 port output callback (_vic20_via1_out): a FIXME stub in the
source, no effect on the state. -/
def _vic20_via1_out (_port_id : Int) (_data : Nat) (sys : vic20_t) : vic20_t :=
  sys

/-- VIA-1 port input callback (_vic20_via1_in): a FIXME stub in the
source, returns ~0 truncated to a uint8, i.e. 0xFF, for every port and
every state. -/
def _vic20_via1_in (_port_id : Int) (_sys : vic20_t) : Nat :=
  255

/-- VIA-2 port output callback (_vic20_via2_out): a FIXME stub in the
source, no effect on the state. -/
def _vic20_via2_out (_port_id : Int) (_data : Nat) (sys : vic20_t) : vic20_t :=
  sys

/-- VIA-2 port input callback (_vic20_via2_in): a FIXME stub in the
source, returns ~0 truncated to a uint8, i.e. 0xFF. -/
def _vic20_via2_in (_port_id : Int) (_sys : vic20_t) : Nat :=
  255

/-- Video fetch callback (_vic20_vic_fetch): a FIXME stub in the source,
returns 0xFFFF for every address. -/
def _vic20_vic_fetch (_addr : Nat) (_sys : vic20_t) : Nat :=
  0xFFFF

/-- Program quickload (vic20_quickload).  Preconditions asserted in C:
valid instance, non-null buffer, positive length.  The body is a FIXME
stub: it copies nothing and always returns false.  The Bool result and
the (unchanged) state are returned as a pair. -/
def vic20_quickload (sys : vic20_t) (_data : List Nat) : Bool × vic20_t :=
  (false, sys)

/-- The byte list backing a mapped window. -/
def mem_backing_bytes (sys : vic20_t) : mem_backing_t → List Nat
  | mem_backing_t.ram0 => sys.ram0
  | mem_backing_t.ram1 => sys.ram1
  | mem_backing_t.ram_exp0 => sys.ram_exp0
  | mem_backing_t.ram_exp1 => sys.ram_exp1
  | mem_backing_t.ram_exp2 => sys.ram_exp2
  | mem_backing_t.rom_char => sys.rom_char
  | mem_backing_t.rom_basic => sys.rom_basic
  | mem_backing_t.rom_kernal => sys.rom_kernal

/-- Modelled from the spec: memory-mapper read (mem_rd from mem.h, which
is not under src/).  The spec makes overlapping windows a configuration
error and gives a priority-ordered first-match decode rule, so the read
resolves to the first window in mapping order that contains the address;
an address no window contains, or a resolved offset beyond the bytes of
the backing region, yields the open-bus value 0xFF. -/
def mem_rd (sys : vic20_t) (addr : Nat) : Nat :=
  let a := addr % 65536
  match sys.mem_cpu.windows.find? (fun w => mem_window_hit w a) with
  | some w => (mem_backing_bytes sys w.backing).getD ((a + 65536 - w.addr) % 65536) 255
  | none => 255

/-- A concrete, well-formed construction descriptor: joystick mode
port 1, a 4 KB character ROM and an 8 KB BASIC ROM of zero bytes, and an
8 KB KERNAL ROM whose first byte is 0x42. -/
def desc0 : vic20_desc_t :=
  { joystick_type := vic20_joystick_type_t.DIGITAL_1
    rom_char := List.replicate 0x1000 0
    rom_basic := List.replicate 0x2000 0
    rom_kernal := 0x42 :: List.replicate 0x1FFF 0
    rom_char_size := 0x1000
    rom_basic_size := 0x2000
    rom_kernal_size := 0x2000 }

/-- A concrete state with both joystick sources non-zero: the direct mask
holds the button bit, the keyboard-emulated mask holds the up bit. -/
def sysJ : vic20_t :=
  vic20_key_down (vic20_joystick (vic20_init desc0) 0x10 0x00) 0x0B

theorem nat_or_and_self (x c : Nat) : (x ||| c) &&& c = c := by
  apply Nat.eq_of_testBit_eq
  intro i
  simp only [Nat.testBit_and, Nat.testBit_or]
  cases h : c.testBit i <;> simp [h]

theorem nat_or_or_self (x c : Nat) : x ||| c ||| c = x ||| c := by
  rw [Nat.or_assoc, Nat.or_self]

theorem _vic20_exec_loop_eq_iterate (sys : vic20_t) :
    ∀ (n : Nat) (pins : Nat),
      _vic20_exec_loop sys pins n = (_vic20_tick sys)^[n] pins := by
  intro n
  induction n with
  | zero => intro pins; rfl
  | succ k ih =>
      intro pins
      rw [_vic20_exec_loop, ih, Function.iterate_succ_apply]

/-- Claim C1: the claim states that the windows mapped by vic20_init never
overlap.  The code refutes it: vic20_init passes the end addresses 0xDFFF
and 0xFFFF as the size argument of mem_map_rom (its own memory-map comment
documents 8 KB windows C000..DFFF and E000..FFFF), so the BASIC window
spans 0xDFFF bytes from 0xC000 and the KERNAL window 0xFFFF bytes from
0xE000: address 0xE000 is contained in two configured windows, and address
0x0000 in three. -/
theorem vic20_init_windows_overlap :
    ((vic20_init desc0).mem_cpu.windows.filter
        (fun w => mem_window_hit w 0xE000)).length = 2
  ∧ ((vic20_init desc0).mem_cpu.windows.filter
        (fun w => mem_window_hit w 0x0000)).length = 3 := by
  exact ⟨by decide, by decide⟩

/-- Claim C2: the claim states that one system tick ticks the CPU, both
VIAs and the VIC and drives the OR of their interrupt outputs onto the
CPU IRQ pin.  The code refutes it: _vic20_tick is a FIXME stub, so
vic20_tick is the identity on the whole state and no chip is ticked and
no interrupt is ever driven. -/
theorem vic20_tick_is_stub (sys : vic20_t) :
    vic20_tick sys = sys ∧ _vic20_tick sys sys.pins = sys.pins :=
  ⟨rfl, rfl⟩

/-- Claim C3: the claim states that quickloading the buffer
01 10 A9 42 on a freshly constructed system succeeds and stores 0xA9 at
address 0x1001.  The code refutes it: vic20_quickload is a FIXME stub
that returns false, leaves the state untouched, and a read of 0x1001
still yields the initial RAM byte 0x00, not 0xA9. -/
theorem vic20_quickload_stub_fails :
    (vic20_quickload (vic20_init desc0) [0x01, 0x10, 0xA9, 0x42]).1 = false
  ∧ (vic20_quickload (vic20_init desc0) [0x01, 0x10, 0xA9, 0x42]).2 = vic20_init desc0
  ∧ mem_rd (vic20_quickload (vic20_init desc0) [0x01, 0x10, 0xA9, 0x42]).2 0x1001 = 0x00
  ∧ mem_rd (vic20_quickload (vic20_init desc0) [0x01, 0x10, 0xA9, 0x42]).2 0x1001 ≠ 0xA9 := by
  have h : mem_rd (vic20_quickload (vic20_init desc0) [0x01, 0x10, 0xA9, 0x42]).2 0x1001 = 0x00 := by
    show (List.replicate 0x1000 0).getD 1 255 = 0x00
    rw [List.getD_eq_getElem?_getD, List.getElem?_replicate, if_pos (by norm_num)]
    rfl
  exact ⟨rfl, rfl, h, by rw [h]; decide⟩

/-- Claim C9: the claim states that a read of a ROM-window address returns
the original ROM byte.  The code refutes it for the KERNAL window: because
vic20_init maps the BASIC window with size 0xDFFF instead of 0x2000, that
window also claims address 0xE000 and the decode resolves there first,
at offset 0x2000 beyond the 8 KB BASIC image, so the read yields the
open-bus value 0xFF instead of the KERNAL ROM byte 0x42 copied in at
construction. -/
theorem vic20_rom_read_broken :
    (vic20_init desc0).rom_kernal.getD 0 0 = 0x42
  ∧ mem_rd (vic20_init desc0) 0xE000 = 0xFF
  ∧ mem_rd (vic20_init desc0) 0xE000 ≠ (vic20_init desc0).rom_kernal.getD 0 0 := by
  have hk : (vic20_init desc0).rom_kernal.getD 0 0 = 0x42 := by
    show ((0x42 :: List.replicate 0x1FFF 0).take 0x2000).getD 0 0 = 0x42
    rw [List.getD_eq_getElem?_getD, List.getElem?_take_of_lt (by norm_num),
        List.getElem?_cons_zero]
    rfl
  have hr : mem_rd (vic20_init desc0) 0xE000 = 0xFF := by
    show ((List.replicate 0x2000 0).take 0x2000).getD 0x2000 255 = 0xFF
    rw [List.take_replicate, Nat.min_self, List.getD_eq_getElem?_getD,
        List.getElem?_replicate, if_neg (by norm_num)]
    rfl
  exact ⟨hk, hr, by rw [hk, hr]; decide⟩

/-- Claim C4: vic20_exec converts the requested microsecond count into a
cycle count at the fixed clock frequency VIC20_FREQUENCY = 1108404 Hz,
applies the per-cycle tick to the pin bus exactly that many times, and
performs exactly one keyboard-debounce update for the whole batch: the
result is the input state with the pin bus replaced by the cycle-count
iterate of the tick and the keyboard debounce clock advanced by one,
everything else unchanged. -/
theorem vic20_exec_batch (sys : vic20_t) (micro_seconds : Nat) :
    vic20_exec sys micro_seconds
      = { sys with
            pins := (_vic20_tick sys)^[clk_us_to_ticks VIC20_FREQUENCY micro_seconds] sys.pins
            kbd := kbd_update sys.kbd }
  ∧ clk_us_to_ticks VIC20_FREQUENCY micro_seconds = 1108404 * micro_seconds / 1000000
  ∧ (vic20_exec sys micro_seconds).kbd.frame_count = sys.kbd.frame_count + 1 := by
  refine ⟨?_, rfl, rfl⟩
  show { sys with
           pins := _vic20_exec_loop sys sys.pins (clk_us_to_ticks VIC20_FREQUENCY micro_seconds)
           kbd := kbd_update sys.kbd }
       = { sys with
             pins := (_vic20_tick sys)^[clk_us_to_ticks VIC20_FREQUENCY micro_seconds] sys.pins
             kbd := kbd_update sys.kbd }
  rw [_vic20_exec_loop_eq_iterate]

/-- Claim C5: key-event routing.  With joystick emulation off every key
event goes to the keyboard matrix; with emulation on, a key code other
than the five designated ones still goes to the matrix, while each
designated key code sets (key-down) or clears (key-up) its joystick mask
bit in the keyboard-emulated mask of joystick 1, joystick 2 or both,
according to the configured mode, leaving the matrix state unchanged. -/
theorem vic20_key_routing (sys : vic20_t) (key_code : Int) (m : Nat) :
    (sys.joystick_type = vic20_joystick_type_t.NONE →
        vic20_key_down sys key_code = { sys with kbd := kbd_key_down sys.kbd key_code }
      ∧ vic20_key_up sys key_code = { sys with kbd := kbd_key_up sys.kbd key_code })
  ∧ (key_code ≠ 0x20 → key_code ≠ 0x08 → key_code ≠ 0x09 → key_code ≠ 0x0A → key_code ≠ 0x0B →
        vic20_key_down sys key_code = { sys with kbd := kbd_key_down sys.kbd key_code }
      ∧ vic20_key_up sys key_code = { sys with kbd := kbd_key_up sys.kbd key_code })
  ∧ ((key_code, m) ∈ [((0x20 : Int), VIC20_JOYSTICK_BTN), (0x08, VIC20_JOYSTICK_LEFT),
        (0x09, VIC20_JOYSTICK_RIGHT), (0x0A, VIC20_JOYSTICK_DOWN), (0x0B, VIC20_JOYSTICK_UP)] →
        (sys.joystick_type = vic20_joystick_type_t.DIGITAL_1 →
            vic20_key_down sys key_code
              = { sys with kbd_joy1_mask := sys.kbd_joy1_mask ||| m }
          ∧ vic20_key_up sys key_code
              = { sys with kbd_joy1_mask := sys.kbd_joy1_mask &&& (255 ^^^ m) })
      ∧ (sys.joystick_type = vic20_joystick_type_t.DIGITAL_2 →
            vic20_key_down sys key_code
              = { sys with kbd_joy2_mask := sys.kbd_joy2_mask ||| m }
          ∧ vic20_key_up sys key_code
              = { sys with kbd_joy2_mask := sys.kbd_joy2_mask &&& (255 ^^^ m) })
      ∧ (sys.joystick_type = vic20_joystick_type_t.DIGITAL_12 →
            vic20_key_down sys key_code
              = { sys with kbd_joy1_mask := sys.kbd_joy1_mask ||| m
                           kbd_joy2_mask := sys.kbd_joy2_mask ||| m }
          ∧ vic20_key_up sys key_code
              = { sys with kbd_joy1_mask := sys.kbd_joy1_mask &&& (255 ^^^ m)
                           kbd_joy2_mask := sys.kbd_joy2_mask &&& (255 ^^^ m) })) := by
  refine ⟨?_, ?_, ?_⟩
  · intro h
    constructor <;> simp [vic20_key_down, vic20_key_up, h]
  · intro h20 h08 h09 h0A h0B
    by_cases h : sys.joystick_type = vic20_joystick_type_t.NONE
    · constructor <;> simp [vic20_key_down, vic20_key_up, h]
    · constructor <;> simp [vic20_key_down, vic20_key_up, h, h20, h08, h09, h0A, h0B]
  · intro hm
    simp only [List.mem_cons, List.not_mem_nil, or_false, Prod.mk.injEq] at hm
    rcases hm with ⟨hk, hmm⟩ | ⟨hk, hmm⟩ | ⟨hk, hmm⟩ | ⟨hk, hmm⟩ | ⟨hk, hmm⟩ <;>
      subst hk <;> subst hmm <;>
      refine ⟨fun h => ?_, fun h => ?_, fun h => ?_⟩ <;>
      constructor <;>
      simp [vic20_key_down, vic20_key_up, h, VIC20_JOYSTICK_BTN, VIC20_JOYSTICK_LEFT,
            VIC20_JOYSTICK_RIGHT, VIC20_JOYSTICK_DOWN, VIC20_JOYSTICK_UP]

/-- Witness for the key-routing theorem: on a fresh system configured for
joystick mode port 1, key-down of the code 0x0B mapped to up ORs the up
bit into the keyboard-emulated port-1 mask and leaves everything else,
the keyboard matrix included, unchanged. -/
theorem vic20_key_routing_witness :
    vic20_key_down (vic20_init desc0) 0x0B
      = { vic20_init desc0 with
            kbd_joy1_mask := (vic20_init desc0).kbd_joy1_mask ||| VIC20_JOYSTICK_UP } :=
  (((vic20_key_routing (vic20_init desc0) 0x0B VIC20_JOYSTICK_UP).2.2
      (by decide)).1 rfl).1

/-- Claim C6: the claim states that the effective joystick mask observable
through the VIA-1 port-in callback equals the OR of the keyboard-emulated
and the directly set masks.  The code refutes it: the callback is a FIXME
stub returning 0xFF for every state, so in the state sysJ whose two
port-1 sources OR to 0x11 the callback still reports 0xFF. -/
theorem vic20_via1_in_ignores_joystick :
    _vic20_via1_in 0 sysJ = 0xFF
  ∧ sysJ.kbd_joy1_mask ||| sysJ.joy_joy1_mask = 0x11
  ∧ _vic20_via1_in 0 sysJ ≠ sysJ.kbd_joy1_mask ||| sysJ.joy_joy1_mask :=
  ⟨rfl, by decide, by decide⟩

/-- Claim C7: with no peripheral attached, both VIA port-input callbacks
return the electrically idle value 0xFF (all bits high) for every port id
and every state; as total functions they trivially complete without
blocking. -/
theorem via_port_in_idle (port_id : Int) (sys : vic20_t) :
    _vic20_via1_in port_id sys = 0xFF ∧ _vic20_via2_in port_id sys = 0xFF :=
  ⟨rfl, rfl⟩

/-- Claim C8: reset is idempotent on every valid state: a second
vic20_reset yields exactly the state of the first; after reset the four
joystick masks are zero, the CPU RESET line is asserted on the pin bus,
and both VIAs and the VIC are in their defined reset states. -/
theorem vic20_reset_idem (sys : vic20_t) (h : sys.valid = true) :
    vic20_reset (vic20_reset sys) = vic20_reset sys
  ∧ (vic20_reset sys).kbd_joy1_mask = 0
  ∧ (vic20_reset sys).kbd_joy2_mask = 0
  ∧ (vic20_reset sys).joy_joy1_mask = 0
  ∧ (vic20_reset sys).joy_joy2_mask = 0
  ∧ (vic20_reset sys).pins &&& M6502_RES = M6502_RES
  ∧ (vic20_reset sys).via_1.regs = 0
  ∧ (vic20_reset sys).via_2.regs = 0
  ∧ (vic20_reset sys).vic.regs = 0 := by
  refine ⟨?_, rfl, rfl, rfl, rfl, ?_, rfl, rfl, rfl⟩
  · simp [vic20_reset, m6522_reset, m6561_reset, nat_or_or_self]
  · exact nat_or_and_self sys.pins M6502_RES

/-- Witness for the reset idempotence theorem at the concrete freshly
constructed (hence valid) system. -/
theorem vic20_reset_idem_witness :
    vic20_reset (vic20_reset (vic20_init desc0)) = vic20_reset (vic20_init desc0) :=
  (vic20_reset_idem (vic20_init desc0) rfl).1

/-- Claim C10: vic20_set_joystick_type changes only the joystick_type
field; in particular all four joystick masks keep their previous values
across the mode change. -/
theorem vic20_set_joystick_type_frame (sys : vic20_t) (t : vic20_joystick_type_t) :
    vic20_set_joystick_type sys t = { sys with joystick_type := t }
  ∧ (vic20_set_joystick_type sys t).kbd_joy1_mask = sys.kbd_joy1_mask
  ∧ (vic20_set_joystick_type sys t).kbd_joy2_mask = sys.kbd_joy2_mask
  ∧ (vic20_set_joystick_type sys t).joy_joy1_mask = sys.joy_joy1_mask
  ∧ (vic20_set_joystick_type sys t).joy_joy2_mask = sys.joy_joy2_mask :=
  ⟨rfl, rfl, rfl, rfl, rfl⟩
